import Mathlib

/-!
Verification development for the satellite-visibility pass finder
(starlink pass tracker). The definitions below are shallow embeddings of
the TypeScript sources:

* `src/starlink/src/orbit/solar.ts`        — visibility rating
* `src/starlink/src/orbit/coordinates.ts`  — compass-direction lookup
* `src/starlink/src/orbit/calculator.ts`   — coarse scan / pass refinement
* `src/starlink/src/orbit/orbitManager.ts` — dataset assembly
* the propagator wrapper (`SatellitePropagator`)

JavaScript numbers are modelled as rationals (`ℚ`); `Date` values are
modelled by their epoch-millisecond value (`Int`).  Transcendental
numeric kernels that the claims never inspect (the SGP4 propagation, the
solar-position ephemeris, the Earth-shadow test) are abstracted as
function parameters; all branching, accumulation, rounding and filtering
logic is translated literally from the source.
-/

/-- JavaScript `Math.round`: round half toward positive infinity,
`Math.round x = ⌊x + 1/2⌋`. -/
def mathRound (q : ℚ) : Int := ⌊q + 1 / 2⌋

/-- Result record of `calculateVisibilityRating`
(`VisibilityInfo` in the TypeScript types). -/
structure VisibilityInfo where
  rating : Int
  category : String
  isIlluminated : Bool
  sunElevation : ℚ
deriving DecidableEq

/-- Observer-darkness component of the visibility rating: the
`rating +=` step chain of `calculateVisibilityRating`
(src/starlink/src/orbit/solar.ts lines 113-121). -/
def darknessComponent (sunElevation : ℚ) : ℚ :=
  if sunElevation ≤ -18 then 50
  else if sunElevation ≤ -12 then 40
  else if sunElevation ≤ -6 then 25
  else if sunElevation < 0 then 10
  else 0

/-- Satellite-elevation component of the visibility rating:
`Math.min(50, (satElevation / 90) * 50)`
(src/starlink/src/orbit/solar.ts line 125). -/
def elevationComponent (satElevation : ℚ) : ℚ :=
  min 50 (satElevation / 90 * 50)

/-- Category thresholds applied to the (unrounded) rating
(src/starlink/src/orbit/solar.ts lines 128-137). -/
def ratingCategory (rating : ℚ) : String :=
  if 75 ≤ rating then "Excellent"
  else if 50 ≤ rating then "Good"
  else if 25 ≤ rating then "Fair"
  else "Poor"

/-- `calculateVisibilityRating` from src/starlink/src/orbit/solar.ts
lines 93-145.  The not-illuminated early return is literal; otherwise
the rating is the darkness step chain plus the capped elevation term,
the category is chosen from the unrounded rating, and the stored rating
is `Math.round`ed. -/
def calculateVisibilityRating (sunElevation : ℚ) (satIlluminated : Bool)
    (satElevation : ℚ) : VisibilityInfo :=
  if !satIlluminated then
    { rating := 0, category := "Poor", isIlluminated := false,
      sunElevation := sunElevation }
  else
    let rating : ℚ := darknessComponent sunElevation + elevationComponent satElevation
    { rating := mathRound rating, category := ratingCategory rating,
      isIlluminated := satIlluminated, sunElevation := sunElevation }

/-- `azimuthToDirection` from src/starlink/src/orbit/coordinates.ts
lines 104-108: `directions[Math.floor((azimuth + 22.5) / 45) % 8]`.
JavaScript `%` truncates toward zero on a negative dividend, which is
`Int.tmod`; an index outside `0..7` (only possible for
`azimuth < -22.5`) reads past the array and yields `undefined`. -/
def azimuthToDirection (azimuth : ℚ) : String :=
  let i : Int := (⌊(azimuth + 22.5) / 45⌋).tmod 8
  if i = 0 then "N"
  else if i = 1 then "NE"
  else if i = 2 then "E"
  else if i = 3 then "SE"
  else if i = 4 then "S"
  else if i = 5 then "SW"
  else if i = 6 then "W"
  else if i = 7 then "NW"
  else "undefined"

/-- The eight compass labels, in array order
(src/starlink/src/orbit/coordinates.ts line 105). -/
def compassDirections : List String := ["N", "NE", "E", "SE", "S", "SW", "W", "NW"]

lemma floor_sector (az : ℚ) (k : Int) (h1 : 45 * k - 22.5 ≤ az)
    (h2 : az < 45 * k + 22.5) : ⌊(az + 22.5) / 45⌋ = k := by
  rw [Int.floor_eq_iff]
  constructor
  · rw [le_div_iff₀ (by norm_num : (0:ℚ) < 45)]
    linarith
  · rw [div_lt_iff₀ (by norm_num : (0:ℚ) < 45)]
    linarith

/-- Kinematic state produced by one propagation step
(`SatellitePosition` in the TypeScript types): sub-satellite geodetic
coordinates, altitude (km), observer-relative elevation and azimuth
(degrees) and slant range (km), tagged with the epoch-millisecond
instant. -/
structure SatellitePosition where
  latitude : ℚ
  longitude : ℚ
  altitude : ℚ
  elevation : ℚ
  azimuth : ℚ
  distance : ℚ
  time : Int
deriving DecidableEq, Inhabited

/-- Search parameters (`Parameters` in the TypeScript types). -/
structure Parameters where
  min_elevation_deg : ℚ
  max_distance_km : ℚ
  hours_ahead : ℚ
deriving DecidableEq

/-- One emitted pass record (`SatellitePass` in the TypeScript types).
Timestamps are epoch milliseconds; the `*_utc` / `*_local` ISO strings
of the source are formattings of these instants.  The optional
movement azimuth and direction of the source (two `| undefined`
fields that are always set together) are modelled as options. -/
structure Pass where
  satellite : String
  start_time : Int
  max_elevation : Int
  max_elevation_time : Int
  end_time : Int
  duration_seconds : Int
  max_distance_km : Int
  visibility_rating : Int
  visibility_category : String
  start_azimuth : Int
  start_direction : String
  movement_azimuth : Option Int
  movement_direction : Option String
deriving DecidableEq

/-- The loop state of `PassCalculator.refinePass`
(src/starlink/src/orbit/calculator.ts lines 176-187):
the list of qualifying fine samples, the running peak-elevation tracker
(initialised to 0, with its time and position), and the first/last
qualifying sample times. -/
structure RefineState where
  positions : List SatellitePosition
  maxElevation : ℚ
  maxElevationTime : Option Int
  maxElevationPosition : Option SatellitePosition
  passStartTime : Option Int
  passEndTime : Option Int

/-- Initial `refinePass` loop state
(src/starlink/src/orbit/calculator.ts lines 183-187). -/
def initRefineState : RefineState :=
  { positions := [], maxElevation := 0, maxElevationTime := none,
    maxElevationPosition := none, passStartTime := none, passEndTime := none }

/-- One iteration of the `refinePass` while loop at instant `t`
(src/starlink/src/orbit/calculator.ts lines 189-212): a sample is taken
only when propagation succeeds and the elevation is at least the
configured minimum; the peak tracker advances only on a strictly larger
elevation. -/
def refineStep (minElev : ℚ) (prop : Int → Option SatellitePosition)
    (st : RefineState) (t : Int) : RefineState :=
  match prop t with
  | none => st
  | some position =>
    if minElev ≤ position.elevation then
      { positions := st.positions ++ [position]
        maxElevation :=
          if st.maxElevation < position.elevation then position.elevation
          else st.maxElevation
        maxElevationTime :=
          if st.maxElevation < position.elevation then some t
          else st.maxElevationTime
        maxElevationPosition :=
          if st.maxElevation < position.elevation then some position
          else st.maxElevationPosition
        passStartTime := some (st.passStartTime.getD t)
        passEndTime := some t }
    else st

/-- The instants visited by a `while (currentTime <= end)` loop that
starts at `s` and advances by `step` milliseconds
(src/starlink/src/orbit/calculator.ts lines 113 and 189). -/
def scanTimes (s e step : Int) : List Int :=
  if s ≤ e then
    (List.range ((e - s).toNat / step.toNat + 1)).map fun i : Nat => s + step * (i : Int)
  else []

/-- The fine-refinement sample instants: the coarse window expanded by
two minutes on each side, scanned at a 10-second step
(src/starlink/src/orbit/calculator.ts lines 175-182). -/
def refineTimes (approxStart approxEnd : Int) : List Int :=
  scanTimes (approxStart - 2 * 60 * 1000) (approxEnd + 2 * 60 * 1000) (10 * 1000)

/-- `PassCalculator.refinePass`
(src/starlink/src/orbit/calculator.ts lines 170-280).  `prop t` stands
for `propagator.propagate(t, observer.latitude, observer.longitude)`
and `calcVis` for `propagator.calculateVisibility(·, observer...)`
(whose solar-geometry internals the claims never inspect).  Everything
else — the guards, the rounding, the direction lookups and the record
assembly — is translated literally. -/
def refinePass (params : Parameters) (name : String)
    (prop : Int → Option SatellitePosition)
    (calcVis : SatellitePosition → VisibilityInfo)
    (approxStart approxEnd : Int) : Option Pass :=
  let st := (refineTimes approxStart approxEnd).foldl
    (refineStep params.min_elevation_deg prop) initRefineState
  match st.passStartTime, st.passEndTime, st.maxElevationTime,
      st.maxElevationPosition with
  | some passStartTime, some passEndTime, some maxElevationTime,
      some maxElevationPosition =>
    if st.positions.length < 2 then none
    else if params.max_distance_km < maxElevationPosition.distance then none
    else
      let visibility := calcVis maxElevationPosition
      let startPosition := st.positions.getD 0 default
      let startAzimuth := mathRound startPosition.azimuth
      let movement : Option (Int × String) :=
        if 3 ≤ st.positions.length then
          let midPosition := st.positions.getD (st.positions.length / 2) default
          let a := mathRound midPosition.azimuth
          some (a, azimuthToDirection (a : ℚ))
        else if 2 ≤ st.positions.length then
          let lastPosition := st.positions.getD (st.positions.length - 1) default
          let a := mathRound lastPosition.azimuth
          some (a, azimuthToDirection (a : ℚ))
        else none
      some
        { satellite := name
          start_time := passStartTime
          max_elevation := mathRound st.maxElevation
          max_elevation_time := maxElevationTime
          end_time := passEndTime
          duration_seconds :=
            mathRound (((passEndTime - passStartTime : Int) : ℚ) / 1000)
          max_distance_km := mathRound maxElevationPosition.distance
          visibility_rating := visibility.rating
          visibility_category := visibility.category
          start_azimuth := startAzimuth
          start_direction := azimuthToDirection (startAzimuth : ℚ)
          movement_azimuth := movement.map Prod.fst
          movement_direction := movement.map Prod.snd }
  | _, _, _, _ => none

/-- C4: if the satellite is not illuminated, the rating is 0 and the
category is "Poor", whatever the sun and satellite elevations are. -/
theorem visibilityRating_not_illuminated (sunElevation satElevation : ℚ) :
    calculateVisibilityRating sunElevation false satElevation =
      { rating := 0, category := "Poor", isIlluminated := false,
        sunElevation := sunElevation } := by
  rfl

/-- C6: for every illuminated input the result is the rounded sum of the
darkness component (a step function with values in [0, 50], stepping at
sun elevations -18, -12, -6 and 0) and the elevation component (linear in
satElevation/90, capped at 50), with the category read off that sum at
thresholds 75/50/25; in particular sun elevation -20, illuminated, and
satellite elevation 90 yield rating 100 and category "Excellent". -/
theorem visibilityRating_illuminated :
    (∀ s e : ℚ, calculateVisibilityRating s true e =
      { rating := mathRound (darknessComponent s + elevationComponent e),
        category := ratingCategory (darknessComponent s + elevationComponent e),
        isIlluminated := true, sunElevation := s }) ∧
    (∀ s : ℚ, 0 ≤ darknessComponent s ∧ darknessComponent s ≤ 50) ∧
    (∀ e : ℚ, elevationComponent e ≤ 50) ∧
    (∀ r : ℚ, (75 ≤ r → ratingCategory r = "Excellent") ∧
      (50 ≤ r → r < 75 → ratingCategory r = "Good") ∧
      (25 ≤ r → r < 50 → ratingCategory r = "Fair") ∧
      (r < 25 → ratingCategory r = "Poor")) ∧
    calculateVisibilityRating (-20) true 90 =
      { rating := 100, category := "Excellent", isIlluminated := true,
        sunElevation := -20 } := by
  refine ⟨fun s e => rfl, fun s => ?_, fun e => ?_, fun r => ?_, ?_⟩
  · unfold darknessComponent
    split_ifs <;> norm_num
  · exact min_le_left _ _
  · unfold ratingCategory
    refine ⟨fun h => ?_, fun h h' => ?_, fun h h' => ?_, fun h => ?_⟩ <;>
      split_ifs <;> first | rfl | linarith
  · norm_num [calculateVisibilityRating, darknessComponent, elevationComponent,
      ratingCategory, mathRound]

/-- C8 (part): `azimuthToDirection` on `[0, 360)` always returns one of
the eight compass labels. -/
lemma azimuthToDirection_total (az : ℚ) (h0 : 0 ≤ az) (h1 : az < 360) :
    azimuthToDirection az ∈ compassDirections := by
  have hn0 : (0:Int) ≤ ⌊(az + 22.5) / 45⌋ := by
    apply Int.le_floor.mpr
    apply div_nonneg
    · linarith
    · norm_num
  have hn8 : ⌊(az + 22.5) / 45⌋ < 9 := by
    rw [Int.floor_lt]
    rw [div_lt_iff₀ (by norm_num : (0:ℚ) < 45)]
    push_cast
    linarith
  simp only [azimuthToDirection]
  set n := ⌊(az + 22.5) / 45⌋ with hn
  interval_cases n <;> decide

/-- C8 (part): on the sector centered at compass point `k` (for
`k = 1, …, 7`), the label is the `k`-th compass direction. -/
lemma azimuthToDirection_sector (k : ℕ) (hk1 : 1 ≤ k) (hk7 : k ≤ 7)
    (az : ℚ) (ha1 : 45 * k - 22.5 ≤ az) (ha2 : az < 45 * k + 22.5) :
    azimuthToDirection az = compassDirections.getD k "undefined" := by
  have hfl : ⌊(az + 22.5) / 45⌋ = (k : Int) := by
    apply floor_sector <;> push_cast <;> [linarith; linarith]
  interval_cases k <;>
    simp only [azimuthToDirection, hfl, compassDirections] <;> decide

/-- C8: `azimuthToDirection` is total on `[0, 360)` with values among
the eight compass labels, assigns each 45°-wide sector centered on a
compass point its label (with the northern sector split across 0°), and
in particular maps 0 and 22.4 to "N" and 22.6 to "NE". -/
theorem azimuthToDirection_spec :
    (∀ az : ℚ, 0 ≤ az → az < 360 → azimuthToDirection az ∈ compassDirections) ∧
    (∀ az : ℚ, 0 ≤ az → az < 22.5 → azimuthToDirection az = "N") ∧
    (∀ az : ℚ, 337.5 ≤ az → az < 360 → azimuthToDirection az = "N") ∧
    (∀ k : ℕ, 1 ≤ k → k ≤ 7 → ∀ az : ℚ,
      45 * k - 22.5 ≤ az → az < 45 * k + 22.5 →
      azimuthToDirection az = compassDirections.getD k "undefined") ∧
    azimuthToDirection 0 = "N" ∧
    azimuthToDirection 22.4 = "N" ∧
    azimuthToDirection 22.6 = "NE" := by
  have h0 : azimuthToDirection 0 = "N" := by
    have hfl : ⌊((0:ℚ) + 22.5) / 45⌋ = 0 := by norm_num
    simp only [azimuthToDirection]
    rw [hfl]
    decide
  have h224 : azimuthToDirection 22.4 = "N" := by
    have hfl : ⌊((22.4:ℚ) + 22.5) / 45⌋ = 0 := by norm_num
    simp only [azimuthToDirection]
    rw [hfl]
    decide
  have h226 : azimuthToDirection 22.6 = "NE" := by
    have hfl : ⌊((22.6:ℚ) + 22.5) / 45⌋ = 1 := by norm_num
    simp only [azimuthToDirection]
    rw [hfl]
    decide
  refine ⟨azimuthToDirection_total, fun az ha0 ha1 => ?_, fun az ha0 ha1 => ?_,
    azimuthToDirection_sector, h0, h224, h226⟩
  · have hfl : ⌊(az + 22.5) / 45⌋ = 0 := by
      apply floor_sector <;> push_cast <;> linarith
    simp only [azimuthToDirection]
    rw [hfl]
    decide
  · have hfl : ⌊(az + 22.5) / 45⌋ = 8 := by
      apply floor_sector <;> push_cast <;> linarith
    simp only [azimuthToDirection]
    rw [hfl]
    decide

/-- Witness for C8 at concrete azimuths: 100° is a compass label, 10° is
"N", 350° is "N", and 90° (sector 2) is "E". -/
theorem azimuthToDirection_spec_witness :
    azimuthToDirection 100 ∈ compassDirections ∧
    azimuthToDirection 10 = "N" ∧
    azimuthToDirection 350 = "N" ∧
    azimuthToDirection 90 = compassDirections.getD 2 "undefined" := by
  obtain ⟨h1, h2, h3, h4, -⟩ := azimuthToDirection_spec
  exact ⟨h1 100 (by norm_num) (by norm_num),
    h2 10 (by norm_num) (by norm_num),
    h3 350 (by norm_num) (by norm_num),
    h4 2 (by norm_num) (by norm_num) 90 (by norm_num) (by norm_num)⟩

/-- A fine-scan instant qualifies when propagation succeeds and the
elevation reaches the configured minimum; the qualifying instants paired
with their samples are exactly the samples `refinePass` accumulates. -/
def qualSample (minElev : ℚ) (prop : Int → Option SatellitePosition)
    (t : Int) : Option (Int × SatellitePosition) :=
  match prop t with
  | none => none
  | some p => if minElev ≤ p.elevation then some (t, p) else none

/-- The qualifying fine samples of a scan, in scan order. -/
def qualifySamples (minElev : ℚ) (prop : Int → Option SatellitePosition)
    (ts : List Int) : List (Int × SatellitePosition) :=
  ts.filterMap (qualSample minElev prop)

/-- The state update `refineStep` performs on a qualifying sample. -/
def qualStep (st : RefineState) (tp : Int × SatellitePosition) : RefineState :=
  { positions := st.positions ++ [tp.2]
    maxElevation :=
      if st.maxElevation < tp.2.elevation then tp.2.elevation
      else st.maxElevation
    maxElevationTime :=
      if st.maxElevation < tp.2.elevation then some tp.1
      else st.maxElevationTime
    maxElevationPosition :=
      if st.maxElevation < tp.2.elevation then some tp.2
      else st.maxElevationPosition
    passStartTime := some (st.passStartTime.getD tp.1)
    passEndTime := some tp.1 }

lemma refineStep_eq (minElev : ℚ) (prop : Int → Option SatellitePosition)
    (st : RefineState) (t : Int) :
    refineStep minElev prop st t =
      match qualSample minElev prop t with
      | none => st
      | some tp => qualStep st tp := by
  unfold refineStep qualSample
  cases prop t with
  | none => rfl
  | some p =>
    by_cases h : minElev ≤ p.elevation <;> simp [h, qualStep]

lemma foldl_refineStep_eq (minElev : ℚ) (prop : Int → Option SatellitePosition)
    (ts : List Int) (st : RefineState) :
    ts.foldl (refineStep minElev prop) st =
      (qualifySamples minElev prop ts).foldl qualStep st := by
  induction ts generalizing st with
  | nil => rfl
  | cons t ts ih =>
    rw [List.foldl_cons, refineStep_eq]
    unfold qualifySamples
    rw [List.filterMap_cons]
    cases qualSample minElev prop t with
    | none => exact ih st
    | some tp => exact ih (qualStep st tp)

lemma mem_qualifySamples (minElev : ℚ) (prop : Int → Option SatellitePosition)
    (ts : List Int) (tp : Int × SatellitePosition)
    (h : tp ∈ qualifySamples minElev prop ts) :
    tp.1 ∈ ts ∧ prop tp.1 = some tp.2 ∧ minElev ≤ tp.2.elevation := by
  obtain ⟨t, hts, hq⟩ := List.mem_filterMap.mp h
  unfold qualSample at hq
  cases hp : prop t with
  | none => rw [hp] at hq; cases hq
  | some p =>
    by_cases he : minElev ≤ p.elevation
    · simp only [hp, if_pos he, Option.some.injEq] at hq
      subst hq
      exact ⟨hts, hp, he⟩
    · simp only [hp, if_neg he] at hq
      cases hq

lemma qualifySamples_fst_sublist (minElev : ℚ)
    (prop : Int → Option SatellitePosition) (ts : List Int) :
    ((qualifySamples minElev prop ts).map Prod.fst).Sublist ts := by
  induction ts with
  | nil => simp [qualifySamples]
  | cons t ts ih =>
    unfold qualifySamples at ih ⊢
    rw [List.filterMap_cons]
    cases hq : qualSample minElev prop t with
    | none => exact ih.cons t
    | some tp =>
      have ht : tp.1 = t := by
        unfold qualSample at hq
        cases hp : prop t with
        | none => rw [hp] at hq; cases hq
        | some p =>
          by_cases he : minElev ≤ p.elevation
          · simp only [hp, if_pos he, Option.some.injEq] at hq
            rw [← hq]
          · simp only [hp, if_neg he] at hq
            cases hq
      rw [List.map_cons, ht]
      exact ih.cons₂ t

lemma qualStep_foldl_positions (Q : List (Int × SatellitePosition))
    (st : RefineState) :
    (Q.foldl qualStep st).positions = st.positions ++ Q.map Prod.snd := by
  induction Q generalizing st with
  | nil => simp
  | cons q Q ih =>
    rw [List.foldl_cons, ih]
    simp [qualStep]

lemma qualStep_foldl_start_some (Q : List (Int × SatellitePosition))
    (st : RefineState) (p : Int) (h : st.passStartTime = some p) :
    (Q.foldl qualStep st).passStartTime = some p := by
  induction Q generalizing st with
  | nil => simpa using h
  | cons q Q ih =>
    rw [List.foldl_cons]
    exact ih _ (by simp [qualStep, h])

lemma qualStep_foldl_start_none (Q : List (Int × SatellitePosition))
    (st : RefineState) (h : st.passStartTime = none) :
    (Q.foldl qualStep st).passStartTime = (Q.map Prod.fst).head? := by
  cases Q with
  | nil => simpa using h
  | cons q Q =>
    rw [List.foldl_cons]
    rw [qualStep_foldl_start_some Q _ q.1 (by simp [qualStep, h])]
    simp

lemma qualStep_foldl_end (Q : List (Int × SatellitePosition))
    (st : RefineState) (h : Q ≠ []) :
    (Q.foldl qualStep st).passEndTime = (Q.map Prod.fst).getLast? := by
  induction Q generalizing st with
  | nil => exact absurd rfl h
  | cons q Q ih =>
    rw [List.foldl_cons]
    cases Q with
    | nil => simp [qualStep]
    | cons r R =>
      rw [ih _ (by simp)]
      simp [List.getLast?_cons_cons]

lemma qualStep_foldl_max (Q : List (Int × SatellitePosition))
    (st : RefineState) :
    ((((Q.foldl qualStep st).maxElevationTime = st.maxElevationTime ∧
       (Q.foldl qualStep st).maxElevationPosition = st.maxElevationPosition ∧
       (Q.foldl qualStep st).maxElevation = st.maxElevation) ∨
      (∃ tp ∈ Q, (Q.foldl qualStep st).maxElevationTime = some tp.1 ∧
        (Q.foldl qualStep st).maxElevationPosition = some tp.2 ∧
        (Q.foldl qualStep st).maxElevation = tp.2.elevation ∧
        st.maxElevation < (Q.foldl qualStep st).maxElevation)) ∧
     (∀ tp ∈ Q, tp.2.elevation ≤ (Q.foldl qualStep st).maxElevation) ∧
     st.maxElevation ≤ (Q.foldl qualStep st).maxElevation) := by
  induction Q generalizing st with
  | nil => simp
  | cons q Q ih =>
    rw [List.foldl_cons]
    obtain ⟨hdisj, hbound, hmono⟩ := ih (qualStep st q)
    by_cases h : st.maxElevation < q.2.elevation
    · have h1 : (qualStep st q).maxElevation = q.2.elevation := by
        simp [qualStep, if_pos h]
      have h2 : (qualStep st q).maxElevationTime = some q.1 := by
        simp [qualStep, if_pos h]
      have h3 : (qualStep st q).maxElevationPosition = some q.2 := by
        simp [qualStep, if_pos h]
      refine ⟨?_, ?_, ?_⟩
      · rcases hdisj with ⟨e1, e2, e3⟩ | ⟨tp, htp, f1, f2, f3, f4⟩
        · exact Or.inr ⟨q, List.mem_cons_self q _,
            by rw [e1, h2], by rw [e2, h3], by rw [e3, h1],
            by rw [e3, h1]; exact h⟩
        · exact Or.inr ⟨tp, List.mem_cons_of_mem q htp, f1, f2, f3,
            lt_trans (by rw [h1]; exact h) f4⟩
      · intro tp htp
        rcases List.mem_cons.mp htp with rfl | hmem
        · rw [← h1]; exact hmono
        · exact hbound tp hmem
      · calc st.maxElevation ≤ (qualStep st q).maxElevation := by
              rw [h1]; exact le_of_lt h
          _ ≤ _ := hmono
    · have h1 : (qualStep st q).maxElevation = st.maxElevation := by
        simp [qualStep, if_neg h]
      have h2 : (qualStep st q).maxElevationTime = st.maxElevationTime := by
        simp [qualStep, if_neg h]
      have h3 : (qualStep st q).maxElevationPosition = st.maxElevationPosition := by
        simp [qualStep, if_neg h]
      refine ⟨?_, ?_, ?_⟩
      · rcases hdisj with ⟨e1, e2, e3⟩ | ⟨tp, htp, f1, f2, f3, f4⟩
        · exact Or.inl ⟨by rw [e1, h2], by rw [e2, h3], by rw [e3, h1]⟩
        · exact Or.inr ⟨tp, List.mem_cons_of_mem q htp, f1, f2, f3,
            by rw [← h1]; exact f4⟩
      · intro tp htp
        rcases List.mem_cons.mp htp with rfl | hmem
        · exact le_trans (le_of_not_lt h) (le_trans (le_of_eq h1.symm) hmono)
        · exact hbound tp hmem
      · exact le_trans (le_of_eq h1.symm) hmono

lemma scanTimes_pairwise (s e step : Int) (hstep : 0 ≤ step) :
    (scanTimes s e step).Pairwise (· ≤ ·) := by
  unfold scanTimes
  split
  · refine List.pairwise_map.mpr
      (List.Pairwise.imp (fun {i j} hij => ?_) (List.pairwise_lt_range _))
    have hij' : (i : Int) ≤ (j : Int) := by exact_mod_cast le_of_lt hij
    exact add_le_add_left (mul_le_mul_of_nonneg_left hij' hstep) s
  · exact List.Pairwise.nil

lemma refineTimes_pairwise (a b : Int) :
    (refineTimes a b).Pairwise (· ≤ ·) :=
  scanTimes_pairwise _ _ _ (by norm_num)

lemma head_le_of_pairwise {l : List Int} (hp : l.Pairwise (· ≤ ·))
    {a b : Int} (hh : l.head? = some a) (hb : b ∈ l) : a ≤ b := by
  cases l with
  | nil => cases hb
  | cons x xs =>
    have hx : x = a := by simpa using hh
    subst hx
    rcases List.mem_cons.mp hb with rfl | hmem
    · exact le_refl _
    · exact (List.pairwise_cons.mp hp).1 b hmem

lemma le_getLast_of_pairwise {l : List Int} (hp : l.Pairwise (· ≤ ·))
    {a b : Int} (hl : l.getLast? = some a) (hb : b ∈ l) : b ≤ a := by
  induction l with
  | nil => cases hb
  | cons x xs ih =>
    cases xs with
    | nil =>
      have hx : x = a := by simpa using hl
      have hbx : b = x := by simpa using hb
      rw [hbx, hx]
    | cons y ys =>
      rw [List.getLast?_cons_cons] at hl
      rcases List.mem_cons.mp hb with rfl | hmem
      · have hmem' : a ∈ y :: ys :=
          List.mem_of_mem_getLast? (Option.mem_def.mpr hl)
        exact (List.pairwise_cons.mp hp).1 a hmem'
      · exact ih (List.pairwise_cons.mp hp).2 hl hmem

/-- Master characterisation of an emitted refined pass: if `refinePass`
returns a record, then (with `Q` the qualifying fine samples of the
expanded window, in scan order) at least two samples qualify, the start
and end times are the first and last qualifying instants, the peak is a
qualifying sample of maximal elevation, positive elevation and in-range
distance, the timestamps are ordered, the duration is the rounded
second difference, and the movement fields come from the middle (≥ 3
samples) or last (2 samples) qualifying sample. -/
lemma refinePass_emitted (params : Parameters) (name : String)
    (prop : Int → Option SatellitePosition)
    (calcVis : SatellitePosition → VisibilityInfo)
    (a b : Int) (pass : Pass)
    (Q : List (Int × SatellitePosition))
    (hQ : Q = qualifySamples params.min_elevation_deg prop (refineTimes a b))
    (h : refinePass params name prop calcVis a b = some pass) :
    2 ≤ Q.length ∧
    (Q.map Prod.fst).head? = some pass.start_time ∧
    (Q.map Prod.fst).getLast? = some pass.end_time ∧
    (∃ tp ∈ Q,
      tp.1 = pass.max_elevation_time ∧
      prop tp.1 = some tp.2 ∧
      params.min_elevation_deg ≤ tp.2.elevation ∧
      0 < tp.2.elevation ∧
      (∀ q ∈ Q, q.2.elevation ≤ tp.2.elevation) ∧
      pass.max_elevation = mathRound tp.2.elevation ∧
      pass.max_distance_km = mathRound tp.2.distance ∧
      tp.2.distance ≤ params.max_distance_km ∧
      tp.1 ∈ refineTimes a b) ∧
    pass.start_time ≤ pass.max_elevation_time ∧
    pass.max_elevation_time ≤ pass.end_time ∧
    pass.duration_seconds =
      mathRound (((pass.end_time - pass.start_time : Int) : ℚ) / 1000) ∧
    (3 ≤ (Q.map Prod.snd).length →
      pass.movement_azimuth = some (mathRound
        (((Q.map Prod.snd).getD ((Q.map Prod.snd).length / 2) default).azimuth)) ∧
      pass.movement_direction = some (azimuthToDirection ((mathRound
        (((Q.map Prod.snd).getD ((Q.map Prod.snd).length / 2) default).azimuth) : Int) : ℚ))) ∧
    (¬ 3 ≤ (Q.map Prod.snd).length →
      pass.movement_azimuth = some (mathRound
        (((Q.map Prod.snd).getD ((Q.map Prod.snd).length - 1) default).azimuth)) ∧
      pass.movement_direction = some (azimuthToDirection ((mathRound
        (((Q.map Prod.snd).getD ((Q.map Prod.snd).length - 1) default).azimuth) : Int) : ℚ))) := by
  simp only [refinePass] at h
  rw [foldl_refineStep_eq] at h
  rw [← hQ] at h
  have hpos : (Q.foldl qualStep initRefineState).positions = Q.map Prod.snd := by
    rw [qualStep_foldl_positions]
    simp [initRefineState]
  rcases hps : (Q.foldl qualStep initRefineState).passStartTime with _ | p1
  · simp [hps] at h
  rcases hpe : (Q.foldl qualStep initRefineState).passEndTime with _ | p2
  · simp [hps, hpe] at h
  rcases hmt : (Q.foldl qualStep initRefineState).maxElevationTime with _ | m
  · simp [hps, hpe, hmt] at h
  rcases hmp : (Q.foldl qualStep initRefineState).maxElevationPosition with _ | mp
  · simp [hps, hpe, hmt, hmp] at h
  simp only [hps, hpe, hmt, hmp] at h
  by_cases hlen : (Q.foldl qualStep initRefineState).positions.length < 2
  · rw [if_pos hlen] at h; cases h
  rw [if_neg hlen] at h
  by_cases hdist : params.max_distance_km < mp.distance
  · rw [if_pos hdist] at h; cases h
  rw [if_neg hdist] at h
  rw [hpos] at hlen
  have hlen2 : 2 ≤ Q.length := by
    rw [List.length_map] at hlen
    omega
  have hQne : Q ≠ [] := by
    intro hnil
    rw [hnil] at hlen2
    simp at hlen2
  have hstart : (Q.map Prod.fst).head? = some p1 := by
    rw [← qualStep_foldl_start_none Q initRefineState (by simp [initRefineState])]
    exact hps
  have hend : (Q.map Prod.fst).getLast? = some p2 := by
    rw [← qualStep_foldl_end Q initRefineState hQne]
    exact hpe
  obtain ⟨hdisj, hbound, -⟩ := qualStep_foldl_max Q initRefineState
  rcases hdisj with ⟨e1, -, -⟩ | ⟨tp, htpQ, f1, f2, f3, f4⟩
  · rw [hmt] at e1
    simp [initRefineState] at e1
  have hm : m = tp.1 := Option.some.inj (hmt.symm.trans f1)
  have hmp' : mp = tp.2 := Option.some.inj (hmp.symm.trans f2)
  have hmaxel : (Q.foldl qualStep initRefineState).maxElevation = tp.2.elevation := f3
  have htppos : 0 < tp.2.elevation := by
    rw [← hmaxel]
    simpa [initRefineState] using f4
  have hbound' : ∀ q ∈ Q, q.2.elevation ≤ tp.2.elevation := by
    intro q hq
    rw [← hmaxel]
    exact hbound q hq
  obtain ⟨htMem, hprop, hminel⟩ :=
    mem_qualifySamples _ _ _ _ (by rw [← hQ]; exact htpQ)
  have hdist' : tp.2.distance ≤ params.max_distance_km := by
    rw [← hmp']
    exact not_lt.mp hdist
  have hpw : (Q.map Prod.fst).Pairwise (· ≤ ·) := by
    rw [hQ]
    exact List.Pairwise.sublist (qualifySamples_fst_sublist _ _ _)
      (refineTimes_pairwise a b)
  have htpfst : tp.1 ∈ Q.map Prod.fst := List.mem_map_of_mem Prod.fst htpQ
  have horder1 : p1 ≤ tp.1 := head_le_of_pairwise hpw hstart htpfst
  have horder2 : tp.1 ≤ p2 := le_getLast_of_pairwise hpw hend htpfst
  rw [hpos, hmaxel, hmp', hm] at h
  have hrec := Option.some.inj h
  subst hrec
  refine ⟨hlen2, hstart, hend,
    ⟨tp, htpQ, rfl, hprop, hminel, htppos, hbound', rfl, rfl, hdist', htMem⟩,
    horder1, horder2, rfl, ?_, ?_⟩
  · intro h3
    dsimp only
    rw [if_pos h3]
    simp
  · intro h3
    have h2' : 2 ≤ (Q.map Prod.snd).length := by
      rw [List.length_map]
      exact hlen2
    dsimp only
    rw [if_neg h3, if_pos h2']
    simp

/-- Concrete fine samples for witness scenarios: a satellite that is
above the 10° threshold at 90, 100 and 110 seconds into the scan. -/
def wProp : Int → Option SatellitePosition := fun t =>
  if t = 90000 then
    some { latitude := 0, longitude := 10, altitude := 550, elevation := 20,
           azimuth := 90, distance := 600, time := 90000 }
  else if t = 100000 then
    some { latitude := 1, longitude := 11, altitude := 550, elevation := 40,
           azimuth := 180, distance := 500, time := 100000 }
  else if t = 110000 then
    some { latitude := 2, longitude := 12, altitude := 550, elevation := 20,
           azimuth := 270, distance := 600, time := 110000 }
  else none

/-- Concrete visibility assessment used by witness scenarios (its value
is irrelevant to the refined-pass structure). -/
def wVis : SatellitePosition → VisibilityInfo := fun _ =>
  { rating := 7, category := "Fair", isIlluminated := true, sunElevation := -15 }

/-- Concrete search parameters for witness scenarios. -/
def wParams : Parameters :=
  { min_elevation_deg := 10, max_distance_km := 1500, hours_ahead := 24 }

/-- The pass record the witness scenario produces. -/
def wPass : Pass :=
  { satellite := "SAT-1", start_time := 90000, max_elevation := 40,
    max_elevation_time := 100000, end_time := 110000, duration_seconds := 20,
    max_distance_km := 500, visibility_rating := 7,
    visibility_category := "Fair", start_azimuth := 90,
    start_direction := "E", movement_azimuth := some 180,
    movement_direction := some "S" }

lemma wRefine_eq :
    refinePass wParams "SAT-1" wProp wVis 90000 110000 = some wPass := by
  have ht : refineTimes 90000 110000 =
      [-30000, -20000, -10000, 0, 10000, 20000, 30000, 40000, 50000, 60000,
       70000, 80000, 90000, 100000, 110000, 120000, 130000, 140000, 150000,
       160000, 170000, 180000, 190000, 200000, 210000, 220000, 230000] := by
    rfl
  have hE : azimuthToDirection (90:ℚ) = "E" := by
    have hfl : ⌊((90:ℚ) + 22.5) / 45⌋ = 2 := by norm_num
    simp only [azimuthToDirection]
    rw [hfl]
    decide
  have hS : azimuthToDirection (180:ℚ) = "S" := by
    have hfl : ⌊((180:ℚ) + 22.5) / 45⌋ = 4 := by norm_num
    simp only [azimuthToDirection]
    rw [hfl]
    decide
  norm_num [refinePass, ht, refineStep, wProp, wParams, wVis, initRefineState,
    wPass, hE, hS, mathRound]

/-- The qualifying fine samples (instant, kinematic state) of one
refinement window, in scan order; their second components are exactly
the `positions` array `refinePass` accumulates. -/
def refineSamples (params : Parameters)
    (prop : Int → Option SatellitePosition) (a b : Int) :
    List (Int × SatellitePosition) :=
  qualifySamples params.min_elevation_deg prop (refineTimes a b)

/-- C3: in every emitted pass record the start time is the first
qualifying fine sample's instant, the end time is the last one's, the
peak time is the instant of a qualifying sample of maximal elevation,
hence start ≤ peak ≤ end, and the duration is the rounded difference
(end − start) / 1000 ms. -/
theorem refinePass_time_invariants (params : Parameters) (name : String)
    (prop : Int → Option SatellitePosition)
    (calcVis : SatellitePosition → VisibilityInfo)
    (a b : Int) (pass : Pass)
    (h : refinePass params name prop calcVis a b = some pass) :
    ((refineSamples params prop a b).map Prod.fst).head? = some pass.start_time ∧
    ((refineSamples params prop a b).map Prod.fst).getLast? = some pass.end_time ∧
    (∃ tp ∈ refineSamples params prop a b,
      tp.1 = pass.max_elevation_time ∧
      ∀ q ∈ refineSamples params prop a b, q.2.elevation ≤ tp.2.elevation) ∧
    pass.start_time ≤ pass.max_elevation_time ∧
    pass.max_elevation_time ≤ pass.end_time ∧
    pass.duration_seconds =
      mathRound (((pass.end_time - pass.start_time : Int) : ℚ) / 1000) := by
  obtain ⟨-, hstart, hend, ⟨tp, htpQ, htpt, -, -, -, hbound, -, -, -, -⟩,
      ho1, ho2, hdur, -, -⟩ :=
    refinePass_emitted params name prop calcVis a b pass
      (refineSamples params prop a b) rfl h
  exact ⟨hstart, hend, ⟨tp, htpQ, htpt, hbound⟩, ho1, ho2, hdur⟩

/-- Witness for C3 at a concrete three-sample scenario. -/
theorem refinePass_time_invariants_witness :
    ((refineSamples wParams wProp 90000 110000).map Prod.fst).head? =
      some wPass.start_time ∧
    ((refineSamples wParams wProp 90000 110000).map Prod.fst).getLast? =
      some wPass.end_time ∧
    (∃ tp ∈ refineSamples wParams wProp 90000 110000,
      tp.1 = wPass.max_elevation_time ∧
      ∀ q ∈ refineSamples wParams wProp 90000 110000,
        q.2.elevation ≤ tp.2.elevation) ∧
    wPass.start_time ≤ wPass.max_elevation_time ∧
    wPass.max_elevation_time ≤ wPass.end_time ∧
    wPass.duration_seconds =
      mathRound (((wPass.end_time - wPass.start_time : Int) : ℚ) / 1000) :=
  refinePass_time_invariants wParams "SAT-1" wProp wVis 90000 110000 wPass
    wRefine_eq

/-- C2 (amended): unconditionally, no pass is ever emitted from a
window with fewer than two qualifying fine samples; and whenever the
configured minimum elevation (resp. maximum distance) is integer-valued
— as the stored record fields are — every emitted pass satisfies
rounded peak elevation ≥ minimum elevation (resp. rounded peak range ≤
maximum distance). -/
theorem refinePass_thresholds (params : Parameters) (name : String)
    (prop : Int → Option SatellitePosition)
    (calcVis : SatellitePosition → VisibilityInfo)
    (a b : Int) (pass : Pass)
    (h : refinePass params name prop calcVis a b = some pass) :
    2 ≤ (refineSamples params prop a b).length ∧
    ((∃ n : Int, params.min_elevation_deg = (n : ℚ)) →
      params.min_elevation_deg ≤ (pass.max_elevation : ℚ)) ∧
    ((∃ n : Int, params.max_distance_km = (n : ℚ)) →
      (pass.max_distance_km : ℚ) ≤ params.max_distance_km) := by
  obtain ⟨hlen2, -, -, ⟨tp, -, -, -, hminel, -, -, hmaxelev, hmaxdist, hdistle, -⟩,
      -, -, -, -, -⟩ :=
    refinePass_emitted params name prop calcVis a b pass
      (refineSamples params prop a b) rfl h
  refine ⟨hlen2, ?_, ?_⟩
  · rintro ⟨nE, hnE⟩
    rw [hmaxelev, hnE]
    have hle : nE ≤ mathRound tp.2.elevation := by
      unfold mathRound
      apply Int.le_floor.mpr
      rw [hnE] at hminel
      linarith
    exact_mod_cast hle
  · rintro ⟨nD, hnD⟩
    rw [hmaxdist, hnD]
    have hle : mathRound tp.2.distance ≤ nD := by
      unfold mathRound
      rw [← Int.lt_add_one_iff]
      apply Int.floor_lt.mpr
      rw [hnD] at hdistle
      push_cast
      linarith
    exact_mod_cast hle

/-- Witness for the amended C2 at a concrete scenario with integer
thresholds 10° and 1500 km. -/
theorem refinePass_thresholds_witness :
    2 ≤ (refineSamples wParams wProp 90000 110000).length ∧
    wParams.min_elevation_deg ≤ (wPass.max_elevation : ℚ) ∧
    (wPass.max_distance_km : ℚ) ≤ wParams.max_distance_km := by
  obtain ⟨h1, h2, h3⟩ :=
    refinePass_thresholds wParams "SAT-1" wProp wVis 90000 110000 wPass
      wRefine_eq
  exact ⟨h1, h2 ⟨10, by norm_num [wParams]⟩, h3 ⟨1500, by norm_num [wParams]⟩⟩

/-- Fine samples whose elevations all lie at -5°: they qualify against a
-10° minimum but never exceed the 0-initialised peak tracker. -/
def nProp : Int → Option SatellitePosition := fun t =>
  if t = 90000 then
    some { latitude := 0, longitude := 10, altitude := 550, elevation := -5,
           azimuth := 90, distance := 500, time := 90000 }
  else if t = 100000 then
    some { latitude := 1, longitude := 11, altitude := 550, elevation := -5,
           azimuth := 90, distance := 500, time := 100000 }
  else none

/-- Search parameters with a negative minimum elevation. -/
def nParams : Parameters :=
  { min_elevation_deg := -10, max_distance_km := 1500, hours_ahead := 24 }

/-- C7: a pass is emitted only if some fine sample both qualifies and
has strictly positive elevation (the peak tracker starts at 0 and moves
only on strictly larger values); concretely, with minimum elevation
-10° a window holding two qualifying samples at -5° yields no pass. -/
theorem refinePass_requires_positive_elevation :
    (∀ (params : Parameters) (name : String)
      (prop : Int → Option SatellitePosition)
      (calcVis : SatellitePosition → VisibilityInfo) (a b : Int) (pass : Pass),
      refinePass params name prop calcVis a b = some pass →
      ∃ t ∈ refineTimes a b, ∃ p, prop t = some p ∧
        params.min_elevation_deg ≤ p.elevation ∧ 0 < p.elevation) ∧
    2 ≤ (refineSamples nParams nProp 90000 100000).length ∧
    refinePass nParams "SAT-3" nProp wVis 90000 100000 = none := by
  have ht : refineTimes 90000 100000 =
      [-30000, -20000, -10000, 0, 10000, 20000, 30000, 40000, 50000, 60000,
       70000, 80000, 90000, 100000, 110000, 120000, 130000, 140000, 150000,
       160000, 170000, 180000, 190000, 200000, 210000, 220000] := by
    rfl
  refine ⟨?_, ?_, ?_⟩
  · intro params name prop calcVis a b pass h
    obtain ⟨-, -, -, ⟨tp, -, -, hprop, hminel, htppos, -, -, -, -, htMem⟩,
        -, -, -, -, -⟩ :=
      refinePass_emitted params name prop calcVis a b pass
        (refineSamples params prop a b) rfl h
    exact ⟨tp.1, htMem, tp.2, hprop, hminel, htppos⟩
  · norm_num [refineSamples, qualifySamples, ht, qualSample, nProp, nParams,
      List.filterMap_cons]
  · norm_num [refinePass, ht, refineStep, nProp, nParams, initRefineState]

/-- Witness for C7's universal part at the concrete three-sample
scenario. -/
theorem refinePass_requires_positive_elevation_witness :
    ∃ t ∈ refineTimes 90000 110000, ∃ p, wProp t = some p ∧
      wParams.min_elevation_deg ≤ p.elevation ∧ 0 < p.elevation :=
  refinePass_requires_positive_elevation.1 wParams "SAT-1" wProp wVis
    90000 110000 wPass wRefine_eq

/-- C9: every emitted pass carries movement azimuth and direction (both
declared optional); they come from the middle fine sample when at least
three samples qualify, and from the last (second) sample when exactly
two do. -/
theorem refinePass_movement_fields (params : Parameters) (name : String)
    (prop : Int → Option SatellitePosition)
    (calcVis : SatellitePosition → VisibilityInfo)
    (a b : Int) (pass : Pass)
    (h : refinePass params name prop calcVis a b = some pass) :
    pass.movement_azimuth.isSome = true ∧
    pass.movement_direction.isSome = true ∧
    (3 ≤ ((refineSamples params prop a b).map Prod.snd).length →
      pass.movement_azimuth = some (mathRound
        ((((refineSamples params prop a b).map Prod.snd).getD
          (((refineSamples params prop a b).map Prod.snd).length / 2)
          default).azimuth)) ∧
      pass.movement_direction = some (azimuthToDirection ((mathRound
        ((((refineSamples params prop a b).map Prod.snd).getD
          (((refineSamples params prop a b).map Prod.snd).length / 2)
          default).azimuth) : Int) : ℚ))) ∧
    (((refineSamples params prop a b).map Prod.snd).length = 2 →
      pass.movement_azimuth = some (mathRound
        ((((refineSamples params prop a b).map Prod.snd).getD 1
          default).azimuth)) ∧
      pass.movement_direction = some (azimuthToDirection ((mathRound
        ((((refineSamples params prop a b).map Prod.snd).getD 1
          default).azimuth) : Int) : ℚ))) := by
  obtain ⟨hlen2, -, -, -, -, -, -, hmv3, hmv2⟩ :=
    refinePass_emitted params name prop calcVis a b pass
      (refineSamples params prop a b) rfl h
  have hlenmap : ((refineSamples params prop a b).map Prod.snd).length =
      (refineSamples params prop a b).length := List.length_map _ _
  by_cases h3 : 3 ≤ ((refineSamples params prop a b).map Prod.snd).length
  · obtain ⟨ha, hd⟩ := hmv3 h3
    refine ⟨by rw [ha]; rfl, by rw [hd]; rfl, fun _ => ⟨ha, hd⟩, fun h2 => ?_⟩
    rw [h2] at h3
    omega
  · obtain ⟨ha, hd⟩ := hmv2 h3
    have h2 : ((refineSamples params prop a b).map Prod.snd).length = 2 := by
      rw [hlenmap] at h3 ⊢
      omega
    have h21 : ((refineSamples params prop a b).map Prod.snd).length - 1 = 1 := by
      rw [h2]
    rw [h21] at ha hd
    exact ⟨by rw [ha]; rfl, by rw [hd]; rfl, fun hc => absurd hc h3,
      fun _ => ⟨ha, hd⟩⟩

/-- Witness for C9 at the concrete three-sample scenario. -/
theorem refinePass_movement_fields_witness :
    wPass.movement_azimuth.isSome = true ∧
    wPass.movement_direction.isSome = true ∧
    (3 ≤ ((refineSamples wParams wProp 90000 110000).map Prod.snd).length →
      wPass.movement_azimuth = some (mathRound
        ((((refineSamples wParams wProp 90000 110000).map Prod.snd).getD
          (((refineSamples wParams wProp 90000 110000).map Prod.snd).length / 2)
          default).azimuth)) ∧
      wPass.movement_direction = some (azimuthToDirection ((mathRound
        ((((refineSamples wParams wProp 90000 110000).map Prod.snd).getD
          (((refineSamples wParams wProp 90000 110000).map Prod.snd).length / 2)
          default).azimuth) : Int) : ℚ))) ∧
    (((refineSamples wParams wProp 90000 110000).map Prod.snd).length = 2 →
      wPass.movement_azimuth = some (mathRound
        ((((refineSamples wParams wProp 90000 110000).map Prod.snd).getD 1
          default).azimuth)) ∧
      wPass.movement_direction = some (azimuthToDirection ((mathRound
        ((((refineSamples wParams wProp 90000 110000).map Prod.snd).getD 1
          default).azimuth) : Int) : ℚ))) :=
  refinePass_movement_fields wParams "SAT-1" wProp wVis 90000 110000 wPass
    wRefine_eq

/-- Fine samples whose elevation sits exactly at a fractional threshold
of 10.4°. -/
def cProp : Int → Option SatellitePosition := fun t =>
  if t = 90000 then
    some { latitude := 0, longitude := 10, altitude := 550, elevation := 10.4,
           azimuth := 90, distance := 500, time := 90000 }
  else if t = 100000 then
    some { latitude := 1, longitude := 11, altitude := 550, elevation := 10.4,
           azimuth := 90, distance := 500, time := 100000 }
  else none

/-- Search parameters with a fractional minimum elevation of 10.4°. -/
def cParams : Parameters :=
  { min_elevation_deg := 10.4, max_distance_km := 1500, hours_ahead := 24 }

/-- The pass record emitted for the fractional-threshold scenario: its
stored (rounded) peak elevation is 10, strictly below the configured
minimum of 10.4. -/
def cPass : Pass :=
  { satellite := "SAT-2", start_time := 90000, max_elevation := 10,
    max_elevation_time := 90000, end_time := 100000, duration_seconds := 10,
    max_distance_km := 500, visibility_rating := 7,
    visibility_category := "Fair", start_azimuth := 90,
    start_direction := "E", movement_azimuth := some 90,
    movement_direction := some "E" }

/-- Counterexample to C2 as stated: with the configured minimum
elevation 10.4°, a refinement window whose two qualifying samples sit at
exactly 10.4° emits a pass whose stored (integer-rounded) peak
elevation, 10, is strictly below the configured threshold. -/
theorem refinePass_thresholds_cex :
    refinePass cParams "SAT-2" cProp wVis 90000 100000 = some cPass ∧
    (cPass.max_elevation : ℚ) < cParams.min_elevation_deg := by
  have ht : refineTimes 90000 100000 =
      [-30000, -20000, -10000, 0, 10000, 20000, 30000, 40000, 50000, 60000,
       70000, 80000, 90000, 100000, 110000, 120000, 130000, 140000, 150000,
       160000, 170000, 180000, 190000, 200000, 210000, 220000] := by
    rfl
  have hE : azimuthToDirection (90:ℚ) = "E" := by
    have hfl : ⌊((90:ℚ) + 22.5) / 45⌋ = 2 := by norm_num
    simp only [azimuthToDirection]
    rw [hfl]
    decide
  constructor
  · norm_num [refinePass, ht, refineStep, cProp, cParams, wVis,
      initRefineState, cPass, hE, mathRound]
  · norm_num [cPass, cParams]

/-- Orbital elements derived from a parsed record
(`getOrbitalElements` in the propagator source): inclination (degrees),
mean motion (rev/day), eccentricity and period (minutes).  The unit
conversions from the raw radian values involve π, so the
degree-valued elements are taken as the abstract parsed data. -/
structure OrbitalElements where
  inclination : ℚ
  meanMotion : ℚ
  eccentricity : ℚ
  period : ℚ
deriving DecidableEq

/-- Abstract model of a successfully parsed `satellite.js` satrec: its
derived orbital elements together with the SGP4 propagation kernel
specialised to this record — `run t lat lon` stands for the whole body
of `propagate` after the null guard (SGP4 propagation, ECI-to-geodetic
conversion and observer-relative geometry), returning `none` exactly
when `satellite.propagate` reports an error. -/
structure SatRec where
  elements : OrbitalElements
  run : Int → ℚ → ℚ → Option SatellitePosition

/-- `SatellitePropagator` (propagator source lines 15-35): the
constructor stores `satrec = null` when `twoline2satrec` threw or
reported a parse error, which `mkPropagator` models by an `Option`
argument: `none` is a failed parse. -/
structure SatellitePropagator where
  satrec : Option SatRec
  name : String
  noradId : String

/-- The constructor: a failed two-line parse yields a permanently
invalid instance (`satrec = none`). -/
def mkPropagator (name noradId : String) (parsed : Option SatRec) :
    SatellitePropagator :=
  { satrec := parsed, name := name, noradId := noradId }

/-- `isValid` (propagator source lines 40-42). -/
def SatellitePropagator.isValid (p : SatellitePropagator) : Bool :=
  p.satrec.isSome

/-- `getName` (propagator source lines 47-49). -/
def SatellitePropagator.getName (p : SatellitePropagator) : String :=
  p.name

/-- `getOrbitalElements` (propagator source lines 61-70): `none` on an
invalid instance. -/
def SatellitePropagator.getOrbitalElements (p : SatellitePropagator) :
    Option OrbitalElements :=
  match p.satrec with
  | none => none
  | some r => some r.elements

/-- `propagate` (propagator source lines 75-115): the null guard is
literal; the successful body is the abstract kernel `run`. -/
def SatellitePropagator.propagate (p : SatellitePropagator) (date : Int)
    (observerLat observerLon : ℚ) : Option SatellitePosition :=
  match p.satrec with
  | none => none
  | some r => r.run date observerLat observerLon

/-- `couldBeVisible` (propagator source lines 135-154), translated
literally: the two inclination window tests against the observer's
absolute latitude, in order. -/
def SatellitePropagator.couldBeVisible (p : SatellitePropagator)
    (observerLat : ℚ) : Bool :=
  match p.satrec with
  | none => false
  | some _ =>
    match p.getOrbitalElements with
    | none => false
    | some elements =>
      let absLat := |observerLat|
      if absLat ≤ elements.inclination ∧ elements.inclination ≤ 180 - absLat then
        true
      else if 180 - absLat ≤ elements.inclination ∨ elements.inclination ≤ absLat then
        true
      else false

/-- The loop state of `PassCalculator.findSatellitePasses`
(src/starlink/src/orbit/calculator.ts lines 104-111): the visibility
run tracker and the passes collected so far.  (The coarse
`passPositions` accumulator of the source is dead for the output and is
not modelled.) -/
structure CoarseState where
  wasVisible : Bool
  passStart : Option Int
  passes : List Pass

/-- The not-visible branch of the coarse loop
(src/starlink/src/orbit/calculator.ts lines 129-146): an open
visibility run is closed and refined, a refusal contributes nothing. -/
def coarseEnd (params : Parameters) (name : String)
    (prop : Int → Option SatellitePosition)
    (calcVis : SatellitePosition → VisibilityInfo)
    (st : CoarseState) (t : Int) : CoarseState :=
  match st.wasVisible, st.passStart with
  | true, some ps =>
    { wasVisible := false, passStart := none,
      passes := st.passes ++ (refinePass params name prop calcVis ps t).toList }
  | _, _ => st

/-- One iteration of the coarse 5-minute scan at instant `t`
(src/starlink/src/orbit/calculator.ts lines 113-148). -/
def coarseStep (params : Parameters) (name : String)
    (prop : Int → Option SatellitePosition)
    (calcVis : SatellitePosition → VisibilityInfo)
    (st : CoarseState) (t : Int) : CoarseState :=
  match prop t with
  | some position =>
    if params.min_elevation_deg ≤ position.elevation then
      if st.wasVisible then st
      else { wasVisible := true, passStart := some t, passes := st.passes }
    else coarseEnd params name prop calcVis st t
  | none => coarseEnd params name prop calcVis st t

/-- `PassCalculator.findSatellitePasses`
(src/starlink/src/orbit/calculator.ts lines 99-165): coarse scan at a
5-minute step over `[startTime, endTime]`, refining each detected
window, and refining a trailing open window against `endTime`. -/
def findSatellitePasses (params : Parameters) (name : String)
    (prop : Int → Option SatellitePosition)
    (calcVis : SatellitePosition → VisibilityInfo)
    (startTime endTime : Int) : List Pass :=
  let final := (scanTimes startTime endTime (5 * 60 * 1000)).foldl
    (coarseStep params name prop calcVis) ⟨false, none, []⟩
  match final.wasVisible, final.passStart with
  | true, some ps =>
    final.passes ++ (refinePass params name prop calcVis ps endTime).toList
  | _, _ => final.passes

/-- A validly parsed record with inclination 30° (propagation kernel
irrelevant). -/
def xSat : SatellitePropagator :=
  mkPropagator "INCL-30" "90001"
    (some { elements := { inclination := 30, meanMotion := 15,
                          eccentricity := 0, period := 96 },
            run := fun _ _ _ => none })

/-- Counterexample to C1 as stated: for observer latitude 60°, a valid
record with inclination 30° — strictly below both |lat| = 60 and
180 − |lat| = 120 — is still accepted by `couldBeVisible`, because the
second disjunct of the source test (`inclination <= absLat`) fires. -/
theorem couldBeVisible_cex :
    xSat.couldBeVisible 60 = true ∧
    ¬(|(60:ℚ)| ≤ 30 ∨ 180 - |(60:ℚ)| ≤ 30) := by
  constructor
  · norm_num [xSat, mkPropagator, SatellitePropagator.couldBeVisible,
      SatellitePropagator.getOrbitalElements]
  · norm_num

/-- C1 (amended): `couldBeVisible` returns true for every validly
parsed record and every observer latitude — the two inclination window
tests jointly cover all inclinations, so the filter never excludes a
valid record. -/
theorem couldBeVisible_always_true (p : SatellitePropagator) (lat : ℚ)
    (h : p.isValid = true) : p.couldBeVisible lat = true := by
  rcases hp : p.satrec with _ | r
  · rw [SatellitePropagator.isValid, hp] at h
    simp at h
  · simp only [SatellitePropagator.couldBeVisible,
      SatellitePropagator.getOrbitalElements, hp]
    by_cases h1 : |lat| ≤ r.elements.inclination ∧
        r.elements.inclination ≤ 180 - |lat|
    · rw [if_pos h1]
    · rw [if_neg h1, if_pos]
      by_cases h2 : r.elements.inclination ≤ |lat|
      · exact Or.inr h2
      · left
        push_neg at h1 h2
        linarith [h1 (le_of_lt h2)]

/-- Witness for the amended C1: the inclination-30 record is accepted
at observer latitude 60. -/
theorem couldBeVisible_always_true_witness :
    xSat.couldBeVisible 60 = true :=
  couldBeVisible_always_true xSat 60 rfl

/-- C5: a propagator constructed from an unparseable record is
permanently invalid, propagates to "no result", fails the visibility
pre-filter, exposes no orbital elements, and its coarse scan over any
window contributes zero passes — with no exception (all the modelled
operations are total functions). -/
theorem invalid_propagator_inert (name noradId : String)
    (params : Parameters) (lat lon : ℚ) (t s e : Int)
    (calcVis : SatellitePosition → VisibilityInfo) :
    (mkPropagator name noradId none).isValid = false ∧
    (mkPropagator name noradId none).propagate t lat lon = none ∧
    (mkPropagator name noradId none).couldBeVisible lat = false ∧
    (mkPropagator name noradId none).getOrbitalElements = none ∧
    findSatellitePasses params name
      (fun u => (mkPropagator name noradId none).propagate u lat lon)
      calcVis s e = [] := by
  refine ⟨rfl, rfl, rfl, rfl, ?_⟩
  unfold findSatellitePasses
  have hfold : ∀ ts : List Int,
      ts.foldl (coarseStep params name
        (fun u => (mkPropagator name noradId none).propagate u lat lon)
        calcVis) ⟨false, none, []⟩ = ⟨false, none, []⟩ := by
    intro ts
    induction ts with
    | nil => rfl
    | cons t ts ih =>
      rw [List.foldl_cons]
      exact ih
  rw [hfold]

/-- Observer descriptor (`Observer` in the TypeScript types). -/
structure Observer where
  latitude : ℚ
  longitude : ℚ
  elevation_m : ℚ
  location_name : String
deriving DecidableEq

/-- The aggregate result (`PassesData` in the TypeScript types);
`generated_at` is the epoch-millisecond generation instant behind the
ISO string of the source. -/
structure PassesData where
  observer : Observer
  parameters : Parameters
  generated_at : Int
  total_passes : Nat
  passes : List Pass
deriving DecidableEq

/-- The sort of `OrbitManager.calculatePasses`
(src/starlink/src/orbit/orbitManager.ts lines 70-72): a stable sort by
the parsed start instant (`new Date(start_time_utc).getTime()`, which
round-trips to `start_time`). -/
def sortPassesByStart (l : List Pass) : List Pass :=
  l.mergeSort fun p q => p.start_time ≤ q.start_time

/-- `OrbitManager.getPassesData`
(src/starlink/src/orbit/orbitManager.ts lines 83-95). -/
def getPassesData (observer : Observer) (parameters : Parameters)
    (generatedAt : Int) (calculatedPasses : List Pass) : PassesData :=
  { observer := observer, parameters := parameters,
    generated_at := generatedAt,
    total_passes := calculatedPasses.length, passes := calculatedPasses }

/-- The result-assembly tail of `OrbitManager.calculatePasses`
(src/starlink/src/orbit/orbitManager.ts lines 57-78): the passes found
by the calculator are sorted by start time and wrapped via
`getPassesData`. -/
def calculatePasses (observer : Observer) (parameters : Parameters)
    (generatedAt : Int) (found : List Pass) : PassesData :=
  getPassesData observer parameters generatedAt (sortPassesByStart found)

/-- C10: every assembled dataset lists the found passes in ascending
start-time order (as a permutation of them, none dropped), and
`total_passes` equals the length of that list. -/
theorem calculatePasses_sorted_and_counted (observer : Observer)
    (parameters : Parameters) (generatedAt : Int) (found : List Pass) :
    (calculatePasses observer parameters generatedAt found).passes.Pairwise
      (fun p q => p.start_time ≤ q.start_time) ∧
    (calculatePasses observer parameters generatedAt found).total_passes =
      (calculatePasses observer parameters generatedAt found).passes.length ∧
    (calculatePasses observer parameters generatedAt found).passes.Perm
      found := by
  refine ⟨?_, rfl, ?_⟩
  · have hs := @List.sorted_mergeSort Pass
      (fun p q : Pass => decide (p.start_time ≤ q.start_time))
      (fun p q r hpq hqr => by
        simp only [decide_eq_true_eq] at hpq hqr ⊢
        exact le_trans hpq hqr)
      (fun p q => by
        simp only [Bool.or_eq_true, decide_eq_true_eq]
        exact le_total _ _)
      found
    exact hs.imp (by simp)
  · exact List.mergeSort_perm found _

/-- Witness for C6 at concrete inputs: sun elevation -13 (nautical
twilight) with satellite elevation 45, the threshold check at rating 80,
and the rating-100 scenario. -/
theorem visibilityRating_illuminated_witness :
    calculateVisibilityRating (-13) true 45 =
      { rating := mathRound (darknessComponent (-13) + elevationComponent 45),
        category := ratingCategory (darknessComponent (-13) + elevationComponent 45),
        isIlluminated := true, sunElevation := -13 } ∧
    (0 ≤ darknessComponent (-13) ∧ darknessComponent (-13) ≤ 50) ∧
    elevationComponent 45 ≤ 50 ∧
    ratingCategory 80 = "Excellent" ∧
    calculateVisibilityRating (-20) true 90 =
      { rating := 100, category := "Excellent", isIlluminated := true,
        sunElevation := -20 } := by
  obtain ⟨h1, h2, h3, h4, h5⟩ := visibilityRating_illuminated
  exact ⟨h1 (-13) 45, h2 (-13), h3 45, (h4 80).1 (by norm_num), h5⟩
